import Mathlib

/-!
Shallow embedding of the synoptikon map-poster pipeline
(`src/backend/create_map_poster.py` and
`src/backend/src/posters/process_poster_creation_step.py`).

Namespace `PosterJob` embeds the job-handler variant
(`process_poster_creation_step.py`); namespace `PosterScript` embeds the
standalone script (`create_map_poster.py`).  Python floats are idealised
as rationals (or reals for the trigonometric rotation step); external
collaborators (geocoding provider, OSMnx, pickle, the filesystem) enter
the model as explicit outcome parameters, exactly at the points where
the source consults them.
-/

namespace PosterJob

/-! ## Road styling (`render_poster`, process_poster_creation_step.py lines 519-544)

The `highway` attribute of an edge may be missing, a single string, or a
list of strings; `data.get("highway", "unclassified")` plus the
`isinstance(highway, list)` normalisation reduce it to one string. -/

/-- Value of the `highway` attribute carried by a road-network edge:
missing, a single tag, or a list of tags (as OSMnx delivers it). -/
inductive HighwayTag
  | absent
  | single (s : String)
  | multi (l : List String)
deriving DecidableEq, Repr

/-- Embeds `highway = data.get("highway", "unclassified")` followed by
`if isinstance(highway, list): highway = highway[0] if highway else "unclassified"`. -/
def effectiveHighway : HighwayTag → String
  | HighwayTag.absent => "unclassified"
  | HighwayTag.single s => s
  | HighwayTag.multi [] => "unclassified"
  | HighwayTag.multi (s :: _) => s

/-- The six road tiers of the `if/elif` chain in `render_poster`. -/
inductive RoadTier
  | motorway
  | primary
  | secondary
  | tertiary
  | residential
  | fallback
deriving DecidableEq, Repr

/-- Embeds the `if highway in [...]` chain of `render_poster`
(identical to `get_edge_colors_by_type` in create_map_poster.py). -/
def roadTier (h : String) : RoadTier :=
  if h = "motorway" ∨ h = "motorway_link" then RoadTier.motorway
  else if h = "trunk" ∨ h = "trunk_link" ∨ h = "primary" ∨ h = "primary_link" then
    RoadTier.primary
  else if h = "secondary" ∨ h = "secondary_link" then RoadTier.secondary
  else if h = "tertiary" ∨ h = "tertiary_link" then RoadTier.tertiary
  else if h = "residential" ∨ h = "living_street" ∨ h = "unclassified" then
    RoadTier.residential
  else RoadTier.fallback

/-- Theme key used as the colour of each tier (`theme["road_motorway"]`, ...). -/
def tierColorKey : RoadTier → String
  | RoadTier.motorway => "road_motorway"
  | RoadTier.primary => "road_primary"
  | RoadTier.secondary => "road_secondary"
  | RoadTier.tertiary => "road_tertiary"
  | RoadTier.residential => "road_residential"
  | RoadTier.fallback => "road_default"

/-- Base line width of each tier, before the `edge_width_factor` scaling
(`width = 1.2`, `1.0`, `0.8`, `0.6`, `0.4`, `0.3` in `render_poster`). -/
def tierWidth : RoadTier → ℚ
  | RoadTier.motorway => 12/10
  | RoadTier.primary => 1
  | RoadTier.secondary => 8/10
  | RoadTier.tertiary => 6/10
  | RoadTier.residential => 4/10
  | RoadTier.fallback => 3/10

/-- Styling of one edge: the (colour key, width) pair appended to
`edge_colors` / `edge_widths` for that edge. -/
def edgeStyle (t : HighwayTag) : String × ℚ :=
  (tierColorKey (roadTier (effectiveHighway t)), tierWidth (roadTier (effectiveHighway t)))

/-- Styling of every edge of a graph, in edge order (the
`for u, v, data in G_projected.edges(data=True)` loop). -/
def edgeStyles (edges : List HighwayTag) : List (String × ℚ) :=
  edges.map edgeStyle

/-! ## Cache reads in the job handler (`cache_get`, lines 63-73)

`cache_get` opens the pickle inside `try ... except Exception: return None`,
so an unreadable or undeserialisable file behaves exactly like a missing
one.  The on-disk state of one key is modelled by `CacheEntry`. -/

/-- On-disk state of one cache key: no file, a file whose unpickling
raises, or a file holding a payload. -/
inductive CacheEntry (α : Type)
  | absent
  | corrupt
  | good (payload : α)

/-- Embeds the job handler's `cache_get`: a missing file returns `None`,
a file whose `pickle.load` raises returns `None` (the blanket
`except Exception`), a healthy file returns its payload. -/
def cache_get {α : Type} : CacheEntry α → Option α
  | CacheEntry.absent => none
  | CacheEntry.corrupt => none
  | CacheEntry.good p => some p

/-- Embeds the handler's street-network acquisition
(`G = cache_get(graph_key)` followed by `if G is None: G = ox.graph_from_point(...)`):
on a cache hit the provider is skipped, otherwise the provider outcome
(value or raised error) is what the handler sees. -/
def handlerFetchGraph {α : Type} (entry : CacheEntry α) (prov : Except String α) :
    Except String α :=
  match cache_get entry with
  | some g => Except.ok g
  | none => prov

/-! ## Default fetch radius from URL elevation (`handler`, lines 768-779)

`distance = input_data.get("distance", 29000)`; after URL parsing,
`if elevation and distance == 29000: distance = elevation // 2`.
`elevation` is `None` when the URL had no `...m` segment, and Python
truthiness also skips the branch when it is `0`. -/

/-- Embeds the handler's effective fetch radius: `inputDistance` is the
`distance` field of the request (`none` when the caller omitted it),
`elev` the elevation extracted from the Google-Maps URL. -/
def effective_distance (inputDistance : Option ℕ) (elev : Option ℕ) : ℕ :=
  let distance := inputDistance.getD 29000
  match elev with
  | none => distance
  | some e => if e ≠ 0 ∧ distance = 29000 then e / 2 else distance

/-! ## Geocoding with retry (`get_coordinates`, lines 304-358)

One provider attempt either yields a location, yields nothing
(`location` falsy, upon which the code raises `ValueError`), or raises
(timeout, connection error, ...).  Crucially, the `raise ValueError`
for the not-found case sits inside the same `try` whose
`except Exception` drives the retry loop, so a not-found response is
retried exactly like any other failure. -/

/-- Outcome of one call to `geolocator.geocode`. -/
inductive GeoOutcome
  | found (lat lon : ℚ)
  | notFound
  | failure (msg : String)
deriving DecidableEq, Repr

/-- Whether the provider returned a location on this attempt. -/
def GeoOutcome.isFound : GeoOutcome → Bool
  | GeoOutcome.found _ _ => true
  | _ => false

/-- Message of the `ValueError` raised when `location` is falsy. -/
def geo_not_found_msg (city country : String) : String :=
  "Could not find coordinates for " ++ city ++ ", " ++ country

/-- Message of the exception the `except Exception as e` handler sees
for a non-found attempt (the not-found `ValueError` or the provider's
own error). -/
def geo_outcome_msg (city country : String) : GeoOutcome → String
  | GeoOutcome.found _ _ => ""
  | GeoOutcome.notFound => geo_not_found_msg city country
  | GeoOutcome.failure m => m

/-- Observable behaviour of one `get_coordinates` run: the returned
coordinates or the raised error, how many provider calls were made, and
the `time.sleep(wait_time)` durations between attempts. -/
structure GeoTrace where
  result : Except String (ℚ × ℚ)
  providerCalls : ℕ
  waits : List ℕ
deriving Repr

/-- Embeds the `for attempt in range(max_retries)` loop: `attempts` is
the list of remaining attempt indices, `calls` and `ws` the provider
calls and sleeps so far.  A found location returns immediately; any
other outcome (the not-found `ValueError` included, since the blanket
`except Exception` catches it) sleeps `2 * (attempt + 1)` seconds and
retries, unless this was the last attempt, in which case the final
`ValueError` is raised. -/
def geocode_attempts (city country : String) (prov : ℕ → GeoOutcome) :
    List ℕ → ℕ → List ℕ → GeoTrace
  | [], calls, ws => GeoTrace.mk (Except.error "") calls ws
  | a :: rest, calls, ws =>
    match prov a with
    | GeoOutcome.found lat lon => GeoTrace.mk (Except.ok (lat, lon)) (calls + 1) ws
    | o =>
      match rest with
      | [] =>
        GeoTrace.mk
          (Except.error
            ("Failed to get coordinates after 3 attempts: " ++ geo_outcome_msg city country o))
          (calls + 1) ws
      | _ :: _ => geocode_attempts city country prov rest (calls + 1) (ws ++ [2 * (a + 1)])

/-- Embeds the job handler's `get_coordinates`: a cached value returns
at once (zero provider calls); otherwise the retry loop runs over
attempts `0, 1, 2` (`max_retries = 3`). -/
def get_coordinates (city country : String) (cached : Option (ℚ × ℚ))
    (prov : ℕ → GeoOutcome) : GeoTrace :=
  match cached with
  | some p => GeoTrace.mk (Except.ok p) 0 []
  | none => geocode_attempts city country prov [0, 1, 2] 0 []

/-! ## Font-weight scoring (`find_font_family` / `score_font`, lines 143-181)

`score_font` scores a candidate `.ttf` filename for a weight class; the
candidates for each weight are then sorted by descending score with
Python's stable sort and the first (highest, earliest on ties) wins. -/

/-- The three weight classes `find_font_family` fills in. -/
inductive FontWeight
  | bold
  | regular
  | light
deriving DecidableEq, Repr

/-- ASCII lowercasing of one character (Python's `str.lower` on the
ASCII filenames this code scores). -/
def lowerChar (c : Char) : Char :=
  if 'A' ≤ c ∧ c ≤ 'Z' then Char.ofNat (c.toNat + 32) else c

/-- Whether `needle` occurs as a contiguous sublist of `hay`
(Python's `in` on strings). -/
def subListOf (needle : List Char) : List Char → Bool
  | [] => needle.isEmpty
  | c :: rest => needle.isPrefixOf (c :: rest) || subListOf needle rest

/-- Whether `c` is a regex word character (`\w` over ASCII filenames). -/
def isWordChar (c : Char) : Bool :=
  c.isAlphanum || c = '_'

/-- Match of an `r"\b<suffix>$"` pattern against a lowercased filename:
the name ends with `suffix` and the character just before the suffix, if
any, is not a word character (a word boundary, `suffix` starting with a
letter). -/
def boundarySuffixMatch (suffix l : List Char) : Bool :=
  suffix.isSuffixOf l &&
    (match (l.take (l.length - suffix.length)).getLast? with
     | none => true
     | some c => !isWordChar c)

/-- Match of a plain `r"<suffix>$"` pattern against a lowercased filename. -/
def plainSuffixMatch (suffix l : List Char) : Bool :=
  suffix.isSuffixOf l

/-- First-matching-pattern bonus of `score_font` for the given weight
(the `for pattern, points in patterns: ... break` loop). -/
def fontPatternPoints (weight : FontWeight) (fl : List Char) : ℤ :=
  match weight with
  | FontWeight.bold =>
    if boundarySuffixMatch "bold.ttf".data fl then 200
    else if plainSuffixMatch "-bold.ttf".data fl then 190
    else if plainSuffixMatch "-semibold.ttf".data fl then 150
    else 0
  | FontWeight.light =>
    if boundarySuffixMatch "light.ttf".data fl then 200
    else if plainSuffixMatch "-light.ttf".data fl then 190
    else if plainSuffixMatch "-thin.ttf".data fl then 150
    else 0
  | FontWeight.regular =>
    if boundarySuffixMatch "regular.ttf".data fl then 200
    else if plainSuffixMatch "-regular.ttf".data fl then 190
    else if plainSuffixMatch "-medium.ttf".data fl then 180
    else 0

/-- Embeds `score_font(filename, weight)`: base 100, plus the first
matching pattern's points, minus 50 for italic variants, minus the
filename length. -/
def score_font (filename : String) (weight : FontWeight) : ℤ :=
  let fl := filename.data.map lowerChar
  100 + fontPatternPoints weight fl
    - (if subListOf "italic".data fl then 50 else 0)
    - filename.length

/-- Embeds the per-weight selection
(`scored.sort(reverse=True, key=lambda x: x[0]); fonts_found[weight] = scored[0][1]`):
Python's stable descending sort followed by taking the head picks the
earliest candidate of maximal score.  Candidates are `(file, file_path)`
pairs; the chosen path is returned. -/
def pickFont (weight : FontWeight) : List (String × String) → Option String
  | [] => none
  | f :: rest =>
    some ((rest.foldl
      (fun best cand =>
        if score_font cand.1 weight > score_font best.1 weight then cand else best) f).2)

/-! ## Graph rotation (`rotate_graph`, lines 367-389)

`rotate_graph` converts the angle to radians and rotates every node's
`(x, y)` about `(center_x, center_y)` with the standard 2D rotation
matrix.  The float arithmetic is idealised over the reals. -/

/-- Projected position of one graph node (the `x`/`y` node attributes). -/
structure NodePos where
  x : ℝ
  y : ℝ

/-- Embeds the per-node body of `rotate_graph`: translate to the centre,
apply `(cos, sin)` of `math.radians(angle_deg)`, translate back. -/
noncomputable def rotateNode (angleDeg cx cy : ℝ) (p : NodePos) : NodePos :=
  let angleRad := angleDeg * Real.pi / 180
  let c := Real.cos angleRad
  let s := Real.sin angleRad
  let dx := p.x - cx
  let dy := p.y - cy
  NodePos.mk (dx * c - dy * s + cx) (dx * s + dy * c + cy)

/-- Embeds `rotate_graph(G, angle_deg, center_x, center_y)`: the node
list of the graph with every position rotated. -/
noncomputable def rotate_graph (angleDeg cx cy : ℝ) (nodes : List NodePos) : List NodePos :=
  nodes.map (rotateNode angleDeg cx cy)

/-! ## Google-Maps URL parsing (`parse_google_maps_url`, lines 240-301)

The function tries an ordered list of matchers and returns on the first
success; if none fires it raises
`ValueError("Could not extract coordinates from Google Maps URL")`.
The regular expressions only use the classes `\d`, literal characters
and the greedy quantifiers `+`, `*`, `?`; since a digit run can never
absorb the literal that follows it, greedy maximal munch is equivalent
to Python's backtracking search for these patterns, and `re.search`
tries each start position left to right. -/

/-- Numeric value of a (non-empty) run of decimal digit characters. -/
def digitsToNat (l : List Char) : ℕ :=
  l.foldl (fun a c => 10 * a + (c.toNat - 48)) 0

/-- Value of an unsigned matched decimal `\d+\.\d+` (integer digits,
a dot, fraction digits). -/
def posDecToRat (l : List Char) : ℚ :=
  let ip := l.takeWhile Char.isDigit
  let fp := (l.dropWhile Char.isDigit).drop 1
  (digitsToNat ip : ℚ) + (digitsToNat fp : ℚ) / 10 ^ fp.length

/-- Value of a matched signed decimal `-?\d+\.\d+` (what `float` turns
the captured group into). -/
def matchedDecToRat (l : List Char) : ℚ :=
  match l with
  | '-' :: rest => -(posDecToRat rest)
  | _ => posDecToRat l

/-- Anchored match of the group `(-?\d+\.\d+)`: returns the matched
text and the remaining input. -/
def matchSignedDec (l : List Char) : Option (List Char × List Char) :=
  let sl : List Char × List Char :=
    match l with
    | '-' :: rest => (['-'], rest)
    | _ => ([], l)
  let d1 := sl.2.takeWhile Char.isDigit
  let l2 := sl.2.dropWhile Char.isDigit
  if d1 = [] then none
  else
    match l2 with
    | '.' :: l3 =>
      let d2 := l3.takeWhile Char.isDigit
      let l4 := l3.dropWhile Char.isDigit
      if d2 = [] then none else some (sl.1 ++ d1 ++ '.' :: d2, l4)
    | _ => none

/-- Anchored match of `@(-?\d+\.\d+),(-?\d+\.\d+),(\d+)m` at the head of
the input (the third group is the elevation in metres). -/
def tryCoordElev (l : List Char) : Option (ℚ × ℚ × ℕ) :=
  match l with
  | '@' :: l1 =>
    match matchSignedDec l1 with
    | some (lat, l2) =>
      match l2 with
      | ',' :: l3 =>
        match matchSignedDec l3 with
        | some (lon, l4) =>
          match l4 with
          | ',' :: l5 =>
            let d := l5.takeWhile Char.isDigit
            let l6 := l5.dropWhile Char.isDigit
            if d = [] then none
            else
              match l6 with
              | 'm' :: _ => some (matchedDecToRat lat, matchedDecToRat lon, digitsToNat d)
              | _ => none
          | _ => none
        | none => none
      | _ => none
    | none => none
  | _ => none

/-- Anchored match of `@(-?\d+\.\d+),(-?\d+\.\d+),(\d+\.?\d*)z` at the
head of the input (zoom form, no elevation). -/
def tryCoordZoom (l : List Char) : Option (ℚ × ℚ) :=
  match l with
  | '@' :: l1 =>
    match matchSignedDec l1 with
    | some (lat, l2) =>
      match l2 with
      | ',' :: l3 =>
        match matchSignedDec l3 with
        | some (lon, l4) =>
          match l4 with
          | ',' :: l5 =>
            let d := l5.takeWhile Char.isDigit
            let l6 := l5.dropWhile Char.isDigit
            if d = [] then none
            else
              let l7 :=
                match l6 with
                | '.' :: t => t.dropWhile Char.isDigit
                | _ => l6
              match l7 with
              | 'z' :: _ => some (matchedDecToRat lat, matchedDecToRat lon)
              | _ => none
          | _ => none
        | none => none
      | _ => none
    | none => none
  | _ => none

/-- Anchored match of `/@...m`: the elevation pattern preceded by a
slash (the place-URL form). -/
def tryCoordElevSlash (l : List Char) : Option (ℚ × ℚ × ℕ) :=
  match l with
  | '/' :: rest => tryCoordElev rest
  | _ => none

/-- Anchored match of `/@...z` preceded by a slash. -/
def tryCoordZoomSlash (l : List Char) : Option (ℚ × ℚ) :=
  match l with
  | '/' :: rest => tryCoordZoom rest
  | _ => none

/-- Anchored match of `3d(-?\d+\.\d+)!4d(-?\d+\.\d+)` (the precise
coordinates of a `data=` segment). -/
def tryDataSegment (l : List Char) : Option (ℚ × ℚ) :=
  match l with
  | '3' :: 'd' :: l1 =>
    match matchSignedDec l1 with
    | some (lat, l2) =>
      match l2 with
      | '!' :: '4' :: 'd' :: l3 =>
        match matchSignedDec l3 with
        | some (lon, _) => some (matchedDecToRat lat, matchedDecToRat lon)
        | none => none
      | _ => none
    | none => none
  | _ => none

/-- Embeds `re.search`: try the anchored matcher at each start
position, left to right (including the end-of-string position). -/
def searchPat {α : Type} (f : List Char → Option α) : List Char → Option α
  | [] => f []
  | c :: rest =>
    match f (c :: rest) with
    | some r => some r
    | none => searchPat f rest

/-- Embeds `urllib.parse.urlparse(url).query`: `urlsplit` cuts the
fragment at the first `#`, then the query is everything after the first
`?` of what remains. -/
def queryOf (l : List Char) : List Char :=
  ((l.takeWhile (fun c => c ≠ '#')).dropWhile (fun c => c ≠ '?')).drop 1

/-- Splits a query field at its first `=` into name and value;
`none` when the field has no `=`. -/
def splitFirstEq : List Char → Option (List Char × List Char)
  | [] => none
  | '=' :: rest => some ([], rest)
  | c :: rest => (splitFirstEq rest).map (fun p => (c :: p.1, p.2))

/-- Embeds `urllib.parse.parse_qs` on the fields this code reads:
fields are split on `&`; a field without `=` or with an empty value is
dropped (`keep_blank_values` is false).  Percent-decoding and `+`
decoding are not modelled (the coordinate values the code extracts
contain neither). -/
def qsPairs (q : List Char) : List (List Char × List Char) :=
  (q.splitOn '&').filterMap (fun field =>
    match splitFirstEq field with
    | none => none
    | some p => if p.2 = [] then none else some p)

/-- First value recorded for `name` (`params[name][0]`), if any. -/
def firstParam (q : List Char) (name : List Char) : Option (List Char) :=
  ((qsPairs q).find? (fun p => p.1 == name)).map (fun p => p.2)

/-- Exponent part of `parseFloatQ` (`e`/`E`, optional sign, digits). -/
def parseFloatExp (mant : ℚ) (r : List Char) : Option ℚ :=
  let sr : ℤ × List Char :=
    match r with
    | '+' :: t => (1, t)
    | '-' :: t => (-1, t)
    | _ => (1, r)
  let ed := sr.2.takeWhile Char.isDigit
  let r2 := sr.2.dropWhile Char.isDigit
  if ed = [] ∨ r2 ≠ [] then none
  else some (mant * 10 ^ (sr.1 * (digitsToNat ed : ℤ)))

/-- Model of Python's `float` on the ASCII decimal and scientific forms
(optional sign, digits with optional fraction, optional exponent).
Exotic accepted spellings (`inf`, `nan`, digit-group underscores,
surrounding whitespace) are not modelled. -/
def parseFloatQ (l : List Char) : Option ℚ :=
  let sl : ℚ × List Char :=
    match l with
    | '+' :: r => (1, r)
    | '-' :: r => (-1, r)
    | _ => (1, l)
  let d1 := sl.2.takeWhile Char.isDigit
  let l2 := sl.2.dropWhile Char.isDigit
  let fr : List Char × List Char :=
    match l2 with
    | '.' :: r => (r.takeWhile Char.isDigit, r.dropWhile Char.isDigit)
    | _ => ([], l2)
  if d1 = [] ∧ fr.1 = [] then none
  else
    let mant : ℚ :=
      sl.1 * ((digitsToNat d1 : ℚ) + (digitsToNat fr.1 : ℚ) / 10 ^ fr.1.length)
    match fr.2 with
    | [] => some mant
    | 'e' :: r => parseFloatExp mant r
    | 'E' :: r => parseFloatExp mant r
    | _ => none

/-- Outcome of one matcher stage of `parse_google_maps_url`: a `return`
with coordinates, an exception raised mid-stage, or a fall-through to
the next stage. -/
inductive UrlStep
  | hit (lat lon : ℚ) (elev : Option ℕ)
  | raiseErr (msg : String)
  | pass
deriving DecidableEq, Repr

/-- Stage (a): `re.search(r"@(-?\d+\.\d+),(-?\d+\.\d+),(\d+)m", url)`. -/
def elevStep (url : List Char) : UrlStep :=
  match searchPat tryCoordElev url with
  | some r => UrlStep.hit r.1 r.2.1 (some r.2.2)
  | none => UrlStep.pass

/-- Stage (b): `re.search(r"@(-?\d+\.\d+),(-?\d+\.\d+),(\d+\.?\d*)z", url)`. -/
def zoomStep (url : List Char) : UrlStep :=
  match searchPat tryCoordZoom url with
  | some r => UrlStep.hit r.1 r.2 none
  | none => UrlStep.pass

/-- Stage (c): the `ll=` query parameter.  A malformed number here is
not caught: `float` raises out of the whole function (a `ValueError`
distinct from the no-pattern one). -/
def llStep (url : List Char) : UrlStep :=
  let q := queryOf url
  if subListOf "ll=".data q then
    match firstParam q "ll".data with
    | some v =>
      match v.splitOn ',' with
      | [a, b] =>
        match parseFloatQ a with
        | some la =>
          match parseFloatQ b with
          | some lo => UrlStep.hit la lo none
          | none =>
            UrlStep.raiseErr ("could not convert string to float: " ++ String.mk b)
        | none =>
          UrlStep.raiseErr ("could not convert string to float: " ++ String.mk a)
      | _ => UrlStep.pass
    | none => UrlStep.pass
  else UrlStep.pass

/-- Stage (d): the `q=` query parameter; here a malformed number is
caught (`except ValueError: pass`) and the stage falls through. -/
def qStep (url : List Char) : UrlStep :=
  let qy := queryOf url
  if subListOf "q=".data qy then
    match firstParam qy "q".data with
    | some v =>
      match v.splitOn ',' with
      | [a, b] =>
        match parseFloatQ a, parseFloatQ b with
        | some la, some lo => UrlStep.hit la lo none
        | _, _ => UrlStep.pass
      | _ => UrlStep.pass
    | none => UrlStep.pass
  else UrlStep.pass

/-- Stage (e): `re.search(r"/@(-?\d+\.\d+),(-?\d+\.\d+),(\d+)m", url)`. -/
def slashElevStep (url : List Char) : UrlStep :=
  match searchPat tryCoordElevSlash url with
  | some r => UrlStep.hit r.1 r.2.1 (some r.2.2)
  | none => UrlStep.pass

/-- Stage (f): `re.search(r"/@(-?\d+\.\d+),(-?\d+\.\d+),(\d+\.?\d*)z", url)`. -/
def slashZoomStep (url : List Char) : UrlStep :=
  match searchPat tryCoordZoomSlash url with
  | some r => UrlStep.hit r.1 r.2 none
  | none => UrlStep.pass

/-- Stage (g): `re.search(r"3d(-?\d+\.\d+)!4d(-?\d+\.\d+)", url)`. -/
def dataStep (url : List Char) : UrlStep :=
  match searchPat tryDataSegment url with
  | some r => UrlStep.hit r.1 r.2 none
  | none => UrlStep.pass

/-- The seven matcher stages, in source order. -/
def url_steps (url : List Char) : List UrlStep :=
  [elevStep url, zoomStep url, llStep url, qStep url,
   slashElevStep url, slashZoomStep url, dataStep url]

/-- Message of the final `ValueError` when no pattern matched. -/
def unparseable_msg : String :=
  "Could not extract coordinates from Google Maps URL"

/-- Runs the stages in order: the first `return` or raised exception
decides; if every stage falls through, the final `ValueError` is
raised. -/
def resolveSteps : List UrlStep → Except String (ℚ × ℚ × Option ℕ)
  | [] => Except.error unparseable_msg
  | UrlStep.hit la lo e :: _ => Except.ok (la, lo, e)
  | UrlStep.raiseErr m :: _ => Except.error m
  | UrlStep.pass :: rest => resolveSteps rest

/-- Embeds `parse_google_maps_url(url)`: the returned
`(lat, lon, elevation)` triple, or the raised `ValueError` message. -/
def parse_google_maps_url (url : String) : Except String (ℚ × ℚ × Option ℕ) :=
  resolveSteps (url_steps url.data)

end PosterJob

/-! ## Cache fingerprints (`cache_file`, both variants, and the key
strings built by `fetch_graph` / `fetch_features` / `get_coordinates`)

`cache_file(key)` is `md5(key.encode()).hexdigest() + ".pkl"`.  MD5 is
the standard RFC 1321 algorithm of Python's `hashlib`, embedded below
over `ℕ` with explicit `% 2^32` reductions. -/

/-- Reduction modulo the 32-bit word size. -/
def w32 (n : ℕ) : ℕ := n % 4294967296

/-- Left rotation of a 32-bit word by `s` places. -/
def rotl32 (x s : ℕ) : ℕ := w32 (x <<< s) ||| (x >>> (32 - s))

/-- Round function F of MD5: `(b and c) or ((not b) and d)`. -/
def md5F (b c d : ℕ) : ℕ := (b &&& c) ||| ((b ^^^ 4294967295) &&& d)

/-- Round function G of MD5: `(d and b) or ((not d) and c)`. -/
def md5G (b c d : ℕ) : ℕ := (d &&& b) ||| ((d ^^^ 4294967295) &&& c)

/-- Round function H of MD5: `b xor c xor d`. -/
def md5H (b c d : ℕ) : ℕ := b ^^^ c ^^^ d

/-- Round function I of MD5: `c xor (b or (not d))`. -/
def md5I (b c d : ℕ) : ℕ := c ^^^ (b ||| (d ^^^ 4294967295))

/-- The 64 sine-derived constants of MD5. -/
def md5K : List ℕ :=
  [0xd76aa478, 0xe8c7b756, 0x242070db, 0xc1bdceee,
   0xf57c0faf, 0x4787c62a, 0xa8304613, 0xfd469501,
   0x698098d8, 0x8b44f7af, 0xffff5bb1, 0x895cd7be,
   0x6b901122, 0xfd987193, 0xa679438e, 0x49b40821,
   0xf61e2562, 0xc040b340, 0x265e5a51, 0xe9b6c7aa,
   0xd62f105d, 0x02441453, 0xd8a1e681, 0xe7d3fbc8,
   0x21e1cde6, 0xc33707d6, 0xf4d50d87, 0x455a14ed,
   0xa9e3e905, 0xfcefa3f8, 0x676f02d9, 0x8d2a4c8a,
   0xfffa3942, 0x8771f681, 0x6d9d6122, 0xfde5380c,
   0xa4beea44, 0x4bdecfa9, 0xf6bb4b60, 0xbebfbc70,
   0x289b7ec6, 0xeaa127fa, 0xd4ef3085, 0x04881d05,
   0xd9d4d039, 0xe6db99e5, 0x1fa27cf8, 0xc4ac5665,
   0xf4292244, 0x432aff97, 0xab9423a7, 0xfc93a039,
   0x655b59c3, 0x8f0ccc92, 0xffeff47d, 0x85845dd1,
   0x6fa87e4f, 0xfe2ce6e0, 0xa3014314, 0x4e0811a1,
   0xf7537e82, 0xbd3af235, 0x2ad7d2bb, 0xeb86d391]

/-- The 64 per-round shift amounts of MD5. -/
def md5S : List ℕ :=
  [7, 12, 17, 22, 7, 12, 17, 22, 7, 12, 17, 22, 7, 12, 17, 22,
   5, 9, 14, 20, 5, 9, 14, 20, 5, 9, 14, 20, 5, 9, 14, 20,
   4, 11, 16, 23, 4, 11, 16, 23, 4, 11, 16, 23, 4, 11, 16, 23,
   6, 10, 15, 21, 6, 10, 15, 21, 6, 10, 15, 21, 6, 10, 15, 21]

/-- Little-endian 32-bit word number `j` of a 64-byte chunk. -/
def chunkWord (chunk : List ℕ) (j : ℕ) : ℕ :=
  chunk.getD (4 * j) 0 + 256 * chunk.getD (4 * j + 1) 0 +
    65536 * chunk.getD (4 * j + 2) 0 + 16777216 * chunk.getD (4 * j + 3) 0

/-- One of the 64 MD5 operations on the state `(a, b, c, d)`. -/
def md5Round (M : ℕ → ℕ) (st : ℕ × ℕ × ℕ × ℕ) (i : ℕ) : ℕ × ℕ × ℕ × ℕ :=
  let a := st.1
  let b := st.2.1
  let c := st.2.2.1
  let d := st.2.2.2
  let f :=
    if i < 16 then md5F b c d
    else if i < 32 then md5G b c d
    else if i < 48 then md5H b c d
    else md5I b c d
  let g :=
    if i < 16 then i
    else if i < 32 then (5 * i + 1) % 16
    else if i < 48 then (3 * i + 5) % 16
    else (7 * i) % 16
  let tmp := w32 (f + a + md5K.getD i 0 + M g)
  (d, w32 (b + rotl32 tmp (md5S.getD i 0)), b, c)

/-- Compression of one 64-byte chunk into the running state. -/
def md5Chunk (h : ℕ × ℕ × ℕ × ℕ) (chunk : List ℕ) : ℕ × ℕ × ℕ × ℕ :=
  let st := (List.range 64).foldl (md5Round (chunkWord chunk)) h
  (w32 (h.1 + st.1), w32 (h.2.1 + st.2.1), w32 (h.2.2.1 + st.2.2.1),
    w32 (h.2.2.2 + st.2.2.2))

/-- Splits a byte list into 64-byte chunks. -/
def chunks64 (l : List ℕ) : List (List ℕ) :=
  if h : l = [] then [] else l.take 64 :: chunks64 (l.drop 64)
termination_by l.length
decreasing_by
  simp only [List.length_drop]
  cases l with
  | nil => exact absurd rfl h
  | cons a t => simp only [List.length_cons]; omega

/-- Little-endian 8-byte rendering of the 64-bit message length. -/
def le64 (v : ℕ) : List ℕ :=
  (List.range 8).map (fun i => (v >>> (8 * i)) % 256)

/-- MD5 padding: a `0x80` byte, zeros to 56 mod 64, then the original
bit length as 8 little-endian bytes. -/
def md5Pad (msg : List ℕ) : List ℕ :=
  msg ++ [128] ++ List.replicate ((119 - msg.length % 64) % 64) 0 ++
    le64 (8 * msg.length % 18446744073709551616)

/-- The MD5 initialisation vector. -/
def md5Init : ℕ × ℕ × ℕ × ℕ := (0x67452301, 0xefcdab89, 0x98badcfe, 0x10325476)

/-- The four little-endian bytes of a 32-bit word. -/
def wordLE (w : ℕ) : List ℕ := [w % 256, w / 256 % 256, w / 65536 % 256, w / 16777216 % 256]

/-- The 16-byte MD5 digest of a byte string. -/
def md5BytesOf (msg : List ℕ) : List ℕ :=
  let h := (chunks64 (md5Pad msg)).foldl md5Chunk md5Init
  wordLE h.1 ++ wordLE h.2.1 ++ wordLE h.2.2.1 ++ wordLE h.2.2.2

/-- Lowercase hex digit for a value below 16. -/
def hexDigitChar (n : ℕ) : Char := "0123456789abcdef".data.getD n '0'

/-- Two-character hex rendering of one byte. -/
def byteHex (b : ℕ) : List Char := [hexDigitChar (b / 16), hexDigitChar (b % 16)]

/-- Bytes of `key.encode()`: code points of the characters.  The cache
keys this program builds are ASCII, where this coincides with UTF-8. -/
def strBytes (s : String) : List ℕ := s.data.map Char.toNat

/-- Embeds `md5(key.encode()).hexdigest()`. -/
def md5Hex (s : String) : String :=
  String.mk (((md5BytesOf (strBytes s)).map byteHex).flatten)

/-- Embeds `cache_file(key)` (identical in both source files): the MD5
hex digest of the key with the `.pkl` suffix. -/
def cache_file (key : String) : String := md5Hex key ++ ".pkl"

/-- Decimal digit lists, most significant first, via a fuel-bounded
structural recursion (so that it reduces definitionally). -/
def natDigitsAux : ℕ → ℕ → List ℕ
  | 0, _ => []
  | fuel + 1, n => if n < 10 then [n] else natDigitsAux fuel (n / 10) ++ [n % 10]

/-- Decimal digits of `n`, most significant first. -/
def natDigits (n : ℕ) : List ℕ := natDigitsAux (n + 1) n

/-- Decimal rendering of a natural number (Python's `str` on a
non-negative `int`, as interpolated into the cache keys). -/
def natDecimal (n : ℕ) : String := String.mk ((natDigits n).map Nat.digitChar)

/-- Key string built by `fetch_graph` (`f"graph_{lat}_{lon}_{dist}"`,
same string as `graph_key` in the job handler).  `lat`/`lon` stand for
Python's decimal rendering of the coordinate floats. -/
def graph_cache_key (lat lon : String) (dist : ℕ) : String :=
  "graph_" ++ lat ++ "_" ++ lon ++ "_" ++ natDecimal dist

/-- Key string built by `fetch_features`
(`f"{name}_{lat}_{lon}_{dist}_{tag_str}"` with
`tag_str = "_".join(tags.keys())`). -/
def feature_cache_key (name lat lon : String) (dist : ℕ) (tagKeys : List String) : String :=
  name ++ "_" ++ lat ++ "_" ++ lon ++ "_" ++ natDecimal dist ++ "_" ++
    String.intercalate "_" tagKeys

/-- Key string built by `get_coordinates` (`f"{city},{country}"`). -/
def coords_cache_key (city country : String) : String := city ++ "," ++ country

/-- A string that contains no underscore (true of Python's decimal
float renderings, which the separator scheme of the keys relies on). -/
def noUnderscore (s : String) : Prop := '_' ∉ s.data

instance (s : String) : Decidable (noUnderscore s) := by
  unfold noUnderscore
  infer_instance

namespace PosterScript

/-! ## Fetching and rendering in the standalone script
(`create_map_poster.py`: `cache_set` lines 58-68, `fetch_graph` 382-400,
`fetch_features` 403-422, `get_coordinates` 425-460, `create_poster`
625-670).

The cache lookup for the request's key is passed in as `cached`; the
provider call outcome as an `Except`; the fate of the pickle write as a
`CacheWrite`. -/

/-- Fate of one `pickle.dump` into the cache: success, a
`pickle.PickleError`, or an `OSError`/`IOError`. -/
inductive CacheWrite
  | okW
  | pickleFail (msg : String)
  | ioFail (msg : String)
deriving DecidableEq, Repr

/-- Embeds `cache_set(name, obj)`: serialization and file errors are
re-raised as `CacheError` with a message naming the key. -/
def cache_set (name : String) (w : CacheWrite) : Except String Unit :=
  match w with
  | CacheWrite.okW => Except.ok ()
  | CacheWrite.pickleFail m =>
    Except.error ("Serialization error while saving cache for " ++ name ++ ": " ++ m)
  | CacheWrite.ioFail m =>
    Except.error ("File error while saving cache for " ++ name ++ ": " ++ m)

/-- A street-network graph, reduced to the edge attributes the renderer
reads: the `highway` tag of each edge, in edge order. -/
abbrev Graph := List PosterJob.HighwayTag

/-- A fetched feature set, reduced to its list of geometries (only
emptiness is observable to the layer logic). -/
abbrev Feats := List ℕ

/-- Embeds `fetch_graph(point, dist)`: a cache hit returns at once; on
a miss the provider is called, a raised `CacheError` from `cache_set`
is caught and only printed, and a provider failure returns `None`. -/
def fetch_graph (key : String) (cached : Option Graph) (prov : Except String Graph)
    (cw : CacheWrite) : Option Graph :=
  match cached with
  | some g => some g
  | none =>
    match prov with
    | Except.ok g =>
      match cache_set key cw with
      | Except.ok _ => some g
      | Except.error _ => some g
    | Except.error _ => none

/-- Embeds `fetch_features(point, dist, tags, name)`: identical shape
to `fetch_graph`; a provider failure degrades to `None`. -/
def fetch_features (key : String) (cached : Option Feats) (prov : Except String Feats)
    (cw : CacheWrite) : Option Feats :=
  match cached with
  | some f => some f
  | none =>
    match prov with
    | Except.ok f =>
      match cache_set key cw with
      | Except.ok _ => some f
      | Except.error _ => some f
    | Except.error _ => none

/-- Embeds the script's `get_coordinates(city, country)` (no retry
loop here): cache hit, else one geocode call; a falsy location raises
`ValueError`, a provider exception propagates, and on success a
`CacheError` from `cache_set` is caught and printed before returning. -/
def get_coordinates (city country : String) (cached : Option (ℚ × ℚ))
    (geo : PosterJob.GeoOutcome) (cw : CacheWrite) : Except String (ℚ × ℚ) :=
  match cached with
  | some p => Except.ok p
  | none =>
    match geo with
    | PosterJob.GeoOutcome.found lat lon =>
      match cache_set (coords_cache_key city country) cw with
      | Except.ok _ => Except.ok (lat, lon)
      | Except.error _ => Except.ok (lat, lon)
    | PosterJob.GeoOutcome.notFound =>
      Except.error (PosterJob.geo_not_found_msg city country)
    | PosterJob.GeoOutcome.failure m => Except.error m

/-- Message of the `ValueError` raised when the street network could
not be fetched (the spec's `FetchFailed`). -/
def fetch_failed_msg : String := "Failed to fetch street network"

/-- Layer-level observables of one render: whether the water and park
layers were plotted, and the per-edge road styling. -/
structure RenderOutcome where
  waterPlotted : Bool
  parksPlotted : Bool
  edgeStyleList : List (String × ℚ)
deriving DecidableEq, Repr

/-- Embeds `water is not None and not water.empty` (and likewise for
parks): the guard under which a feature layer is plotted. -/
def layerPlotted : Option Feats → Bool
  | none => false
  | some l => !l.isEmpty

/-- The layer compositing of `render_poster`/`create_poster`: water and
parks are plotted only when present and non-empty; every edge gets its
road-hierarchy styling. -/
def render_layers (G : Graph) (parks water : Option Feats) : RenderOutcome :=
  RenderOutcome.mk (layerPlotted water) (layerPlotted parks) (PosterJob.edgeStyles G)

/-- Embeds the fetch-and-render body of `create_poster`: the graph
fetch runs first and `None` aborts with the `FetchFailed` `ValueError`
before anything is rendered; the two feature fetches then run and the
render proceeds with whatever they produced. -/
def create_poster (gk pk wk : String) (gc : Option Graph) (pc wc : Option Feats)
    (gp : Except String Graph) (pp wp : Except String Feats)
    (cwg cwp cww : CacheWrite) : Except String RenderOutcome :=
  match fetch_graph gk gc gp cwg with
  | none => Except.error fetch_failed_msg
  | some G =>
    let parks := fetch_features pk pc pp cwp
    let water := fetch_features wk wc wp cww
    Except.ok (render_layers G parks water)

end PosterScript

/-- Positional (base-10) value of a digit list; the inverse view of
`natDigitsAux` used to prove the key encoding injective. -/
def evalDigits (l : List ℕ) : ℕ := l.foldl (fun a d => 10 * a + d) 0

/-- A geocoding provider whose first attempt reports the query as not
found and whose later attempts succeed. -/
def c2RetryProv : ℕ → PosterJob.GeoOutcome := fun a =>
  if a = 0 then PosterJob.GeoOutcome.notFound else PosterJob.GeoOutcome.found 1 2

/-- A geocoding provider that times out on every attempt. -/
def c2TimeoutProv : ℕ → PosterJob.GeoOutcome := fun _ =>
  PosterJob.GeoOutcome.failure "timed out"

/-! # Claim theorems -/

/-! ## C1 — road-class styling -/

/-- C1 (counterexample): the claim sends an edge with no `highway` tag
to the default/fallback tier, but the code defaults the tag to
`"unclassified"`, which the hierarchy places in the residential tier
(`road_residential`, width 0.4), not the fallback tier
(`road_default`, width 0.3). -/
theorem c1_untagged_edge_counterexample :
    PosterJob.edgeStyle PosterJob.HighwayTag.absent =
      (("road_residential" : String), (4/10 : ℚ)) ∧
    PosterJob.edgeStyle PosterJob.HighwayTag.absent ≠
      (("road_default" : String), (3/10 : ℚ)) := by
  refine ⟨rfl, fun hc => absurd (congrArg Prod.fst hc) ?_⟩
  decide

/-- C1 (amended): the styling reads the first element of a list-valued
`highway` tag; the list `["motorway", "motorway_link"]` resolves to the
motorway colour and width; an edge with no `highway` tag resolves, via
the default tag `"unclassified"`, to the residential tier
(`road_residential`, width 0.4) rather than the fallback tier. -/
theorem c1_road_class_mapping :
    (∀ (s : String) (rest : List String),
      PosterJob.edgeStyle (PosterJob.HighwayTag.multi (s :: rest)) =
        PosterJob.edgeStyle (PosterJob.HighwayTag.single s)) ∧
    PosterJob.edgeStyle (PosterJob.HighwayTag.multi ["motorway", "motorway_link"]) =
      (("road_motorway" : String), (12/10 : ℚ)) ∧
    PosterJob.edgeStyle PosterJob.HighwayTag.absent =
      (("road_residential" : String), (4/10 : ℚ)) :=
  ⟨fun _ _ => rfl, rfl, rfl⟩

/-! ## C8 — elevation-derived default radius -/

/-- C8 (counterexample): a caller who explicitly supplies the radius
29000 — the same value as the default — has it replaced by
`elevation // 2` (here 8502 // 2 = 4251), so a caller-supplied radius
is not always preserved. -/
theorem c8_default_value_override_counterexample :
    PosterJob.effective_distance (some 29000) (some 8502) = 4251 ∧
    (4251 : ℕ) ≠ 29000 := by
  decide

/-- C8 (amended): when the URL yields a non-zero elevation, the radius
becomes `elevation / 2` whenever the effective radius equals the
default 29000 — whether the caller omitted it or explicitly sent
29000; any other caller-supplied radius is never replaced, and without
an elevation the radius is the supplied value. -/
theorem c8_elevation_default_radius (d e : ℕ) :
    (e ≠ 0 → PosterJob.effective_distance none (some e) = e / 2) ∧
    (d ≠ 29000 → PosterJob.effective_distance (some d) (some e) = d) ∧
    (e ≠ 0 → PosterJob.effective_distance (some 29000) (some e) = e / 2) ∧
    PosterJob.effective_distance (some d) none = d := by
  refine ⟨fun h => ?_, fun h => ?_, fun h => ?_, rfl⟩
  · simp [PosterJob.effective_distance, h]
  · simp [PosterJob.effective_distance, h]
  · simp [PosterJob.effective_distance, h]

/-- C8 (witness): the amended theorem evaluated at elevation 8502 with
the radius omitted, and at a caller-supplied radius of 10000. -/
theorem c8_elevation_default_radius_witness :
    PosterJob.effective_distance none (some 8502) = 8502 / 2 ∧
    PosterJob.effective_distance (some 10000) (some 8502) = 10000 :=
  ⟨(c8_elevation_default_radius 10000 8502).1 (by decide),
   (c8_elevation_default_radius 10000 8502).2.1 (by decide)⟩

/-! ## C9 — font-weight scoring -/

/-- C9: for the bold weight, `Roboto-Bold.ttf` scores strictly higher
than `Roboto-BoldItalic.ttf` (the italic variant loses 50 points and
its extra length) and is selected from the candidate list in either
order; among names hitting the same pattern, the shorter one scores
higher. -/
theorem c9_bold_font_scoring :
    PosterJob.score_font "Roboto-Bold.ttf" PosterJob.FontWeight.bold >
      PosterJob.score_font "Roboto-BoldItalic.ttf" PosterJob.FontWeight.bold ∧
    PosterJob.pickFont PosterJob.FontWeight.bold
      [("Roboto-Bold.ttf", "fonts/Roboto/Roboto-Bold.ttf"),
       ("Roboto-BoldItalic.ttf", "fonts/Roboto/Roboto-BoldItalic.ttf")] =
      some "fonts/Roboto/Roboto-Bold.ttf" ∧
    PosterJob.pickFont PosterJob.FontWeight.bold
      [("Roboto-BoldItalic.ttf", "fonts/Roboto/Roboto-BoldItalic.ttf"),
       ("Roboto-Bold.ttf", "fonts/Roboto/Roboto-Bold.ttf")] =
      some "fonts/Roboto/Roboto-Bold.ttf" ∧
    PosterJob.score_font "A-Bold.ttf" PosterJob.FontWeight.bold >
      PosterJob.score_font "AB-Bold.ttf" PosterJob.FontWeight.bold := by
  decide

/-! ## C10 — corrupt cache entries behave as misses -/

/-- C10: the job handler's `cache_get` yields `None` for a corrupt
entry (its blanket `except Exception` turns any read or unpickling
failure into a miss), so the subsequent fetch behaves exactly as if the
entry were absent, while a healthy entry is returned as-is. -/
theorem c10_corrupt_cache_is_miss (α : Type) (prov : Except String α) (p : α) :
    PosterJob.cache_get (PosterJob.CacheEntry.corrupt : PosterJob.CacheEntry α) = none ∧
    PosterJob.handlerFetchGraph (PosterJob.CacheEntry.corrupt : PosterJob.CacheEntry α) prov =
      PosterJob.handlerFetchGraph (PosterJob.CacheEntry.absent : PosterJob.CacheEntry α) prov ∧
    PosterJob.cache_get (PosterJob.CacheEntry.good p) = some p :=
  ⟨rfl, rfl, rfl⟩

/-! ## C7 — cache writes are best-effort -/

/-- C7: a serialization or I/O failure while writing the cache is
wrapped in a `CacheError`, which every caller catches: `fetch_graph`,
`fetch_features` and `get_coordinates` return exactly the same result
whether the cache write succeeds or raises, and a fresh fetch is
handed back intact even when its cache write fails. -/
theorem c7_cache_write_best_effort (k city country m m' : String)
    (gc : Option PosterScript.Graph) (gp : Except String PosterScript.Graph)
    (fc : Option PosterScript.Feats) (fp : Except String PosterScript.Feats)
    (cc : Option (ℚ × ℚ)) (geo : PosterJob.GeoOutcome) :
    (PosterScript.fetch_graph k gc gp (PosterScript.CacheWrite.pickleFail m) =
       PosterScript.fetch_graph k gc gp PosterScript.CacheWrite.okW ∧
     PosterScript.fetch_graph k gc gp (PosterScript.CacheWrite.ioFail m') =
       PosterScript.fetch_graph k gc gp PosterScript.CacheWrite.okW) ∧
    (PosterScript.fetch_features k fc fp (PosterScript.CacheWrite.pickleFail m) =
       PosterScript.fetch_features k fc fp PosterScript.CacheWrite.okW ∧
     PosterScript.fetch_features k fc fp (PosterScript.CacheWrite.ioFail m') =
       PosterScript.fetch_features k fc fp PosterScript.CacheWrite.okW) ∧
    (PosterScript.get_coordinates city country cc geo (PosterScript.CacheWrite.pickleFail m) =
       PosterScript.get_coordinates city country cc geo PosterScript.CacheWrite.okW) ∧
    (∀ g : PosterScript.Graph,
      PosterScript.fetch_graph k none (Except.ok g) (PosterScript.CacheWrite.pickleFail m) =
        some g) := by
  refine ⟨⟨?_, ?_⟩, ⟨?_, ?_⟩, ?_, fun g => rfl⟩
  · cases gc <;> cases gp <;> rfl
  · cases gc <;> cases gp <;> rfl
  · cases fc <;> cases fp <;> rfl
  · cases fc <;> cases fp <;> rfl
  · cases cc <;> cases geo <;> rfl

/-! ## C6 — feature failure is non-fatal, network failure is fatal -/

/-- C6: with the street network fetched, a failed parks (or water)
provider call degrades to an absent layer — the pipeline still returns
a render in which that layer is not plotted — whereas a failed
street-network fetch makes `create_poster` raise the `FetchFailed`
`ValueError` and no render is produced. -/
theorem c6_feature_nonfatal_network_fatal (gk pk wk e e2 e3 : String)
    (G : PosterScript.Graph) (pc wc : Option PosterScript.Feats)
    (pp wp : Except String PosterScript.Feats)
    (cwg cwp cww : PosterScript.CacheWrite) :
    (PosterScript.create_poster gk pk wk none none wc (Except.ok G) (Except.error e) wp
        cwg cwp cww =
      Except.ok (PosterScript.render_layers G none
        (PosterScript.fetch_features wk wc wp cww)) ∧
     (PosterScript.render_layers G none
        (PosterScript.fetch_features wk wc wp cww)).parksPlotted = false) ∧
    (PosterScript.create_poster gk pk wk none pc none (Except.ok G) pp (Except.error e2)
        cwg cwp cww =
      Except.ok (PosterScript.render_layers G
        (PosterScript.fetch_features pk pc pp cwp) none) ∧
     (PosterScript.render_layers G
        (PosterScript.fetch_features pk pc pp cwp) none).waterPlotted = false) ∧
    PosterScript.create_poster gk pk wk none pc wc (Except.error e3) pp wp cwg cwp cww =
      Except.error PosterScript.fetch_failed_msg := by
  refine ⟨⟨?_, rfl⟩, ⟨?_, rfl⟩, ?_⟩
  · cases cwg <;> rfl
  · cases cwg <;> rfl
  · rfl

/-! ## C2 — geocoding retry policy -/

/-- C2 (counterexample): the claim says a provider-reported "not
found" fails immediately without retry, but the not-found `ValueError`
is raised inside the `try` whose blanket `except Exception` drives the
retry loop: with a provider that reports not-found once and then
succeeds, the resolver sleeps and retries, making a second provider
call and returning its coordinates. -/
theorem c2_notfound_retried_counterexample :
    PosterJob.get_coordinates "Atlantis" "Nowhere" none c2RetryProv =
      PosterJob.GeoTrace.mk (Except.ok (1, 2)) 2 [2] :=
  rfl

/-- C2 (amended): the resolver makes at most 3 provider attempts and
retries on every failure — provider exceptions and provider-reported
not-found alike — sleeping `2 * (attempt + 1)` seconds (linearly
increasing) between attempts; a found location returns immediately,
and after 3 non-found attempts it raises a `ValueError` wrapping the
last attempt's error. -/
theorem c2_retry_behavior (city country : String) (prov : ℕ → PosterJob.GeoOutcome) :
    ((prov 0).isFound = false → (prov 1).isFound = false → (prov 2).isFound = false →
      PosterJob.get_coordinates city country none prov =
        PosterJob.GeoTrace.mk
          (Except.error ("Failed to get coordinates after 3 attempts: " ++
            PosterJob.geo_outcome_msg city country (prov 2))) 3 [2, 4]) ∧
    (∀ lat lon : ℚ, prov 0 = PosterJob.GeoOutcome.found lat lon →
      PosterJob.get_coordinates city country none prov =
        PosterJob.GeoTrace.mk (Except.ok (lat, lon)) 1 []) ∧
    (∀ lat lon : ℚ, (prov 0).isFound = false →
      prov 1 = PosterJob.GeoOutcome.found lat lon →
      PosterJob.get_coordinates city country none prov =
        PosterJob.GeoTrace.mk (Except.ok (lat, lon)) 2 [2]) := by
  refine ⟨?_, ?_, ?_⟩
  · intro h0 h1 h2
    cases hp0 : prov 0 with
    | found la lo => rw [hp0] at h0; simp [PosterJob.GeoOutcome.isFound] at h0
    | notFound =>
      cases hp1 : prov 1 with
      | found la lo => rw [hp1] at h1; simp [PosterJob.GeoOutcome.isFound] at h1
      | notFound =>
        cases hp2 : prov 2 with
        | found la lo => rw [hp2] at h2; simp [PosterJob.GeoOutcome.isFound] at h2
        | notFound =>
          simp [PosterJob.get_coordinates, PosterJob.geocode_attempts, hp0, hp1, hp2]
        | failure m2 =>
          simp [PosterJob.get_coordinates, PosterJob.geocode_attempts, hp0, hp1, hp2]
      | failure m1 =>
        cases hp2 : prov 2 with
        | found la lo => rw [hp2] at h2; simp [PosterJob.GeoOutcome.isFound] at h2
        | notFound =>
          simp [PosterJob.get_coordinates, PosterJob.geocode_attempts, hp0, hp1, hp2]
        | failure m2 =>
          simp [PosterJob.get_coordinates, PosterJob.geocode_attempts, hp0, hp1, hp2]
    | failure m0 =>
      cases hp1 : prov 1 with
      | found la lo => rw [hp1] at h1; simp [PosterJob.GeoOutcome.isFound] at h1
      | notFound =>
        cases hp2 : prov 2 with
        | found la lo => rw [hp2] at h2; simp [PosterJob.GeoOutcome.isFound] at h2
        | notFound =>
          simp [PosterJob.get_coordinates, PosterJob.geocode_attempts, hp0, hp1, hp2]
        | failure m2 =>
          simp [PosterJob.get_coordinates, PosterJob.geocode_attempts, hp0, hp1, hp2]
      | failure m1 =>
        cases hp2 : prov 2 with
        | found la lo => rw [hp2] at h2; simp [PosterJob.GeoOutcome.isFound] at h2
        | notFound =>
          simp [PosterJob.get_coordinates, PosterJob.geocode_attempts, hp0, hp1, hp2]
        | failure m2 =>
          simp [PosterJob.get_coordinates, PosterJob.geocode_attempts, hp0, hp1, hp2]
  · intro lat lon h0
    simp [PosterJob.get_coordinates, PosterJob.geocode_attempts, h0]
  · intro lat lon h0 h1
    cases hp0 : prov 0 with
    | found la lo => rw [hp0] at h0; simp [PosterJob.GeoOutcome.isFound] at h0
    | notFound =>
      simp [PosterJob.get_coordinates, PosterJob.geocode_attempts, hp0, h1]
    | failure m0 =>
      simp [PosterJob.get_coordinates, PosterJob.geocode_attempts, hp0, h1]

/-- C2 (witness): the amended theorem evaluated on a provider that
times out on every attempt: three calls, sleeps of 2 and 4 seconds,
and the final wrapped `ValueError`. -/
theorem c2_retry_behavior_witness :
    PosterJob.get_coordinates "Atlantis" "Nowhere" none c2TimeoutProv =
      PosterJob.GeoTrace.mk
        (Except.error ("Failed to get coordinates after 3 attempts: " ++
          PosterJob.geo_outcome_msg "Atlantis" "Nowhere" (c2TimeoutProv 2))) 3 [2, 4] :=
  (c2_retry_behavior "Atlantis" "Nowhere" c2TimeoutProv).1 rfl rfl rfl

/-! ## C4 — rotation identities -/

/-- Nodewise form of the 0-degree case: the rotation matrix at angle 0
is the identity. -/
theorem rotateNode_zero (cx cy : ℝ) (p : PosterJob.NodePos) :
    PosterJob.rotateNode 0 cx cy p = p := by
  cases p with
  | mk x y =>
    simp only [PosterJob.rotateNode]
    rw [show (0 : ℝ) * Real.pi / 180 = 0 by ring, Real.cos_zero, Real.sin_zero]
    simp only [PosterJob.NodePos.mk.injEq]
    constructor <;> ring

/-- Nodewise form of the 360-degree case: `math.radians(360)` is `2π`,
whose cosine and sine are 1 and 0. -/
theorem rotateNode_full_turn (cx cy : ℝ) (p : PosterJob.NodePos) :
    PosterJob.rotateNode 360 cx cy p = p := by
  cases p with
  | mk x y =>
    simp only [PosterJob.rotateNode]
    rw [show (360 : ℝ) * Real.pi / 180 = 2 * Real.pi by ring,
        Real.cos_two_pi, Real.sin_two_pi]
    simp only [PosterJob.NodePos.mk.injEq]
    constructor <;> ring

/-- Nodewise form of the inverse case: rotating by `θ` then `-θ` about
the same centre is the identity, by `sin² + cos² = 1`. -/
theorem rotateNode_neg_cancel (θ cx cy : ℝ) (p : PosterJob.NodePos) :
    PosterJob.rotateNode (-θ) cx cy (PosterJob.rotateNode θ cx cy p) = p := by
  cases p with
  | mk x y =>
    simp only [PosterJob.rotateNode]
    rw [show -θ * Real.pi / 180 = -(θ * Real.pi / 180) by ring,
        Real.cos_neg, Real.sin_neg]
    have hpyth := Real.sin_sq_add_cos_sq (θ * Real.pi / 180)
    simp only [PosterJob.NodePos.mk.injEq]
    constructor
    · linear_combination (x - cx) * hpyth
    · linear_combination (y - cy) * hpyth

/-- Pointwise-identity maps leave a node list unchanged. -/
theorem list_map_self {α : Type} (f : α → α) (h : ∀ x, f x = x) :
    ∀ l : List α, l.map f = l
  | [] => rfl
  | a :: t => by rw [List.map_cons, h a, list_map_self f h t]

/-- C4: on the real-valued idealisation of the float arithmetic,
rotating a graph's nodes by 0 degrees is the identity, rotating by 360
degrees returns every node coordinate to its original value, and
rotating by `θ` and then by `-θ` about the same centre restores every
node. -/
theorem c4_rotation_identities (θ cx cy : ℝ) (nodes : List PosterJob.NodePos) :
    PosterJob.rotate_graph 0 cx cy nodes = nodes ∧
    PosterJob.rotate_graph 360 cx cy nodes = nodes ∧
    PosterJob.rotate_graph (-θ) cx cy (PosterJob.rotate_graph θ cx cy nodes) = nodes := by
  refine ⟨?_, ?_, ?_⟩
  · exact list_map_self _ (rotateNode_zero cx cy) nodes
  · exact list_map_self _ (rotateNode_full_turn cx cy) nodes
  · unfold PosterJob.rotate_graph
    rw [List.map_map]
    exact list_map_self _ (fun p => rotateNode_neg_cancel θ cx cy p) nodes

/-! ## C5 — Google-Maps URL parsing -/

/-- C5: the zoom-form URL yields (37.7749, -122.4194) with no
elevation, the metres-form URL yields (55.7873, 12.4654) with
elevation 8502, and whenever every matcher stage falls through, the
parser raises the `UnparseableUrl` `ValueError`. -/
theorem c5_url_parsing :
    PosterJob.parse_google_maps_url "https://www.google.com/maps/@37.7749,-122.4194,15z" =
      Except.ok ((37.7749 : ℚ), (-122.4194 : ℚ), none) ∧
    PosterJob.parse_google_maps_url "https://www.google.com/maps/@55.7873,12.4654,8502m" =
      Except.ok ((55.7873 : ℚ), (12.4654 : ℚ), some 8502) ∧
    (∀ url : String,
      (∀ s ∈ PosterJob.url_steps url.data, s = PosterJob.UrlStep.pass) →
      PosterJob.parse_google_maps_url url = Except.error PosterJob.unparseable_msg) := by
  refine ⟨?_, ?_, ?_⟩
  · rw [show (37.7749 : ℚ) = ((37 : ℕ) : ℚ) + ((7749 : ℕ) : ℚ) / 10 ^ (4 : ℕ) by norm_num,
        show (-122.4194 : ℚ) = -(((122 : ℕ) : ℚ) + ((4194 : ℕ) : ℚ) / 10 ^ (4 : ℕ)) by
          norm_num]
    rfl
  · rw [show (55.7873 : ℚ) = ((55 : ℕ) : ℚ) + ((7873 : ℕ) : ℚ) / 10 ^ (4 : ℕ) by norm_num,
        show (12.4654 : ℚ) = ((12 : ℕ) : ℚ) + ((4654 : ℕ) : ℚ) / 10 ^ (4 : ℕ) by norm_num]
    rfl
  · intro url h
    have h1 := h (PosterJob.elevStep url.data) (by simp [PosterJob.url_steps])
    have h2 := h (PosterJob.zoomStep url.data) (by simp [PosterJob.url_steps])
    have h3 := h (PosterJob.llStep url.data) (by simp [PosterJob.url_steps])
    have h4 := h (PosterJob.qStep url.data) (by simp [PosterJob.url_steps])
    have h5 := h (PosterJob.slashElevStep url.data) (by simp [PosterJob.url_steps])
    have h6 := h (PosterJob.slashZoomStep url.data) (by simp [PosterJob.url_steps])
    have h7 := h (PosterJob.dataStep url.data) (by simp [PosterJob.url_steps])
    unfold PosterJob.parse_google_maps_url PosterJob.url_steps
    rw [h1, h2, h3, h4, h5, h6, h7]
    rfl

/-- C5 (witness): a URL in which no coordinate pattern occurs makes
every stage fall through, and the parser raises the final
`ValueError`. -/
theorem c5_url_parsing_witness :
    PosterJob.parse_google_maps_url "https://example.com/no-coordinates-here" =
      Except.error PosterJob.unparseable_msg :=
  c5_url_parsing.2.2 "https://example.com/no-coordinates-here" (by decide)

/-! ## C3 — cache-key fingerprints

Supporting lemmas: the decimal digit encoding is injective, and
joining underscore-free components with `"_"` separators is injective.
-/

theorem foldl_digits_snoc (l : List ℕ) (x a : ℕ) :
    (l ++ [x]).foldl (fun a d => 10 * a + d) a =
      10 * l.foldl (fun a d => 10 * a + d) a + x := by
  rw [List.foldl_append]
  rfl

theorem natDigitsAux_eval : ∀ fuel n, n < fuel → evalDigits (natDigitsAux fuel n) = n := by
  intro fuel
  induction fuel with
  | zero => intro n h; exact absurd h (Nat.not_lt_zero n)
  | succ f ih =>
    intro n h
    by_cases h10 : n < 10
    · simp [natDigitsAux, h10, evalDigits]
    · have hrec : n / 10 < f := by omega
      simp only [natDigitsAux, if_neg h10]
      unfold evalDigits
      rw [foldl_digits_snoc]
      have he := ih (n / 10) hrec
      unfold evalDigits at he
      rw [he]
      omega

theorem natDigits_eval (n : ℕ) : evalDigits (natDigits n) = n :=
  natDigitsAux_eval (n + 1) n (Nat.lt_succ_self n)

theorem natDigitsAux_lt10 : ∀ fuel n d, d ∈ natDigitsAux fuel n → d < 10 := by
  intro fuel
  induction fuel with
  | zero => intro n d hd; simp [natDigitsAux] at hd
  | succ f ih =>
    intro n d hd
    by_cases h10 : n < 10
    · simp only [natDigitsAux, if_pos h10, List.mem_singleton] at hd
      omega
    · simp only [natDigitsAux, if_neg h10, List.mem_append, List.mem_singleton] at hd
      cases hd with
      | inl hm => exact ih _ _ hm
      | inr hm => omega

theorem digitChar_inj_lt :
    ∀ a, a < 10 → ∀ b, b < 10 → Nat.digitChar a = Nat.digitChar b → a = b := by
  decide

theorem map_digitChar_inj : ∀ l1 l2 : List ℕ, (∀ d ∈ l1, d < 10) → (∀ d ∈ l2, d < 10) →
    l1.map Nat.digitChar = l2.map Nat.digitChar → l1 = l2 := by
  intro l1
  induction l1 with
  | nil =>
    intro l2 _ _ h
    cases l2 with
    | nil => rfl
    | cons b t => simp at h
  | cons a t ih =>
    intro l2 h1 h2 h
    cases l2 with
    | nil => simp at h
    | cons b t2 =>
      simp only [List.map_cons, List.cons.injEq] at h
      have ha : a < 10 := h1 a (List.mem_cons_self a t)
      have hb : b < 10 := h2 b (List.mem_cons_self b t2)
      have hab : a = b := digitChar_inj_lt a ha b hb h.1
      rw [hab, ih t2 (fun d hd => h1 d (List.mem_cons_of_mem _ hd))
        (fun d hd => h2 d (List.mem_cons_of_mem _ hd)) h.2]

theorem natDecimal_inj (m n : ℕ) (h : natDecimal m = natDecimal n) : m = n := by
  have hdata : (natDigits m).map Nat.digitChar = (natDigits n).map Nat.digitChar :=
    congrArg String.data h
  have hd : natDigits m = natDigits n :=
    map_digitChar_inj _ _ (fun d hd => natDigitsAux_lt10 _ _ d hd)
      (fun d hd => natDigitsAux_lt10 _ _ d hd) hdata
  calc m = evalDigits (natDigits m) := (natDigits_eval m).symm
    _ = evalDigits (natDigits n) := by rw [hd]
    _ = n := natDigits_eval n

theorem append_underscore_inj : ∀ a : List Char, '_' ∉ a → ∀ b : List Char, '_' ∉ b →
    ∀ x y : List Char, a ++ '_' :: x = b ++ '_' :: y → a = b ∧ x = y := by
  intro a
  induction a with
  | nil =>
    intro _ b hb x y h
    cases b with
    | nil =>
      simp only [List.nil_append, List.cons.injEq] at h
      exact ⟨rfl, h.2⟩
    | cons c bs =>
      simp only [List.nil_append, List.cons_append, List.cons.injEq] at h
      rw [← h.1] at hb
      exact absurd (List.mem_cons_self _ _) hb
  | cons c as ih =>
    intro ha b hb x y h
    cases b with
    | nil =>
      simp only [List.nil_append, List.cons_append, List.cons.injEq] at h
      rw [h.1] at ha
      exact absurd (List.mem_cons_self _ _) ha
    | cons c2 bs =>
      simp only [List.cons_append, List.cons.injEq] at h
      have ha' : '_' ∉ as := fun hm => ha (List.mem_cons_of_mem _ hm)
      have hb' : '_' ∉ bs := fun hm => hb (List.mem_cons_of_mem _ hm)
      obtain ⟨e1, e2⟩ := ih ha' bs hb' x y h.2
      exact ⟨by rw [h.1, e1], e2⟩

theorem graph_cache_key_data (la lo : String) (d : ℕ) :
    (graph_cache_key la lo d).data =
      "graph_".data ++ (la.data ++ '_' :: (lo.data ++ '_' ::
        (natDigits d).map Nat.digitChar)) := by
  have hu : "_".data = ['_'] := rfl
  have hv : (natDecimal d).data = (natDigits d).map Nat.digitChar := rfl
  simp [graph_cache_key, String.data_append, hu, hv, List.append_assoc]

theorem graph_cache_key_injective (la lo la2 lo2 : String) (d d2 : ℕ)
    (h1 : noUnderscore la) (h2 : noUnderscore lo)
    (h3 : noUnderscore la2) (h4 : noUnderscore lo2)
    (h : graph_cache_key la lo d = graph_cache_key la2 lo2 d2) :
    la = la2 ∧ lo = lo2 ∧ d = d2 := by
  have hd := congrArg String.data h
  rw [graph_cache_key_data, graph_cache_key_data] at hd
  have hd2 := List.append_cancel_left hd
  obtain ⟨e1, e2⟩ := append_underscore_inj la.data h1 la2.data h3 _ _ hd2
  obtain ⟨e3, e4⟩ := append_underscore_inj lo.data h2 lo2.data h4 _ _ e2
  refine ⟨?_, ?_, ?_⟩
  · cases la
    cases la2
    exact congrArg String.mk e1
  · cases lo
    cases lo2
    exact congrArg String.mk e3
  · have hmap := map_digitChar_inj _ _ (fun d hd => natDigitsAux_lt10 _ _ d hd)
      (fun d hd => natDigitsAux_lt10 _ _ d hd) e4
    calc d = evalDigits (natDigits d) := (natDigits_eval d).symm
      _ = evalDigits (natDigits d2) := congrArg evalDigits hmap
      _ = d2 := natDigits_eval d2

/-- C3 (counterexample): the feature-tag set is flattened with
`"_".join(tags.keys())` into the same underscore-separated namespace as
the other key fields, so the two distinct tag sets
`["natural", "waterway"]` and `["natural_waterway"]` — requests
identical in every other field — produce the identical key string and
hence the identical cache fingerprint. -/
theorem c3_tag_join_collision_counterexample :
    (["natural", "waterway"] : List String) ≠ ["natural_waterway"] ∧
    feature_cache_key "water" "55.6761" "12.5683" 29000 ["natural", "waterway"] =
      feature_cache_key "water" "55.6761" "12.5683" 29000 ["natural_waterway"] ∧
    cache_file (feature_cache_key "water" "55.6761" "12.5683" 29000
        ["natural", "waterway"]) =
      cache_file (feature_cache_key "water" "55.6761" "12.5683" 29000
        ["natural_waterway"]) := by
  have hk : feature_cache_key "water" "55.6761" "12.5683" 29000 ["natural", "waterway"] =
      feature_cache_key "water" "55.6761" "12.5683" 29000 ["natural_waterway"] := by
    decide
  exact ⟨by decide, hk, congrArg cache_file hk⟩

/-- C3 (amended): the fingerprint is a pure function of the key string,
so identical fields always give the identical cache key; and for the
street-network keys, requests differing in the coordinate strings or
the radius give distinct key strings (the underscore-separated encoding
is injective when the coordinate renderings contain no underscore) —
distinct fingerprints then follow up to MD5 collisions.  The tag-set
field, by contrast, is not injectively encoded (see the
counterexample). -/
theorem c3_cache_key_fingerprint (la lo la2 lo2 : String) (d d2 : ℕ)
    (h1 : noUnderscore la) (h2 : noUnderscore lo)
    (h3 : noUnderscore la2) (h4 : noUnderscore lo2) :
    (la = la2 → lo = lo2 → d = d2 →
      cache_file (graph_cache_key la lo d) = cache_file (graph_cache_key la2 lo2 d2)) ∧
    (graph_cache_key la lo d = graph_cache_key la2 lo2 d2 →
      la = la2 ∧ lo = lo2 ∧ d = d2) := by
  constructor
  · intro e1 e2 e3
    rw [e1, e2, e3]
  · exact graph_cache_key_injective la lo la2 lo2 d d2 h1 h2 h3 h4

/-- C3 (witness): the amended theorem applied at the concrete graph
request (55.7873, 12.4654, radius 29000): identical fields give the
identical fingerprint, and equality of the keys recovers the fields. -/
theorem c3_cache_key_fingerprint_witness :
    cache_file (graph_cache_key "55.7873" "12.4654" 29000) =
      cache_file (graph_cache_key "55.7873" "12.4654" 29000) ∧
    (("55.7873" : String) = "55.7873" ∧ ("12.4654" : String) = "12.4654" ∧
      (29000 : ℕ) = 29000) :=
  ⟨(c3_cache_key_fingerprint "55.7873" "12.4654" "55.7873" "12.4654" 29000 29000
      (by decide) (by decide) (by decide) (by decide)).1 rfl rfl rfl,
   (c3_cache_key_fingerprint "55.7873" "12.4654" "55.7873" "12.4654" 29000 29000
      (by decide) (by decide) (by decide) (by decide)).2 rfl⟩
